import Mathlib

/-!
Verification of the iris MLOps operator scripts.

Shallow embedding of the scripts in `scripts/trigger_training.py`,
`scripts/deploy_endpoint.py`, `scripts/test_endpoint.py` and
`scripts/cleanup.py`. External cloud calls (job status polling, S3 object
retrieval, archive extraction, endpoint listing and deletion, endpoint
invocation) are modelled as explicit scripted inputs; the scripts' control
flow over those inputs is translated function by function from the source.
-/

set_option autoImplicit false

namespace IrisMlops

/-! ## Job statuses (`trigger_training.py`, `wait_for_training`) -/

/-- Training job status as reported by the platform.  The wait loop in
`wait_for_training` treats `Completed`, `Failed` and `Stopped` as terminal
(line 82: `if status in ['Completed', 'Failed', 'Stopped']: break`). -/
inductive JobStatus where
  | Pending
  | InProgress
  | Stopping
  | Completed
  | Failed
  | Stopped
  deriving DecidableEq, Repr

/-- The break condition of the poll loop at line 82 of `trigger_training.py`. -/
def isTerminal (s : JobStatus) : Bool :=
  s = .Completed || s = .Failed || s = .Stopped

/-- One successful `describe_training_job` response: the fields the script
reads (`TrainingJobStatus`, `ModelArtifacts.S3ModelArtifacts`,
`FailureReason`). -/
structure DescribeResponse where
  status : JobStatus
  modelArtifacts : String
  failureReason : Option String
  deriving DecidableEq, Repr

/-- A scripted sequence of poll outcomes: `none` models a
`describe_training_job` call that raised an exception (caught at line 86),
`some r` a call that returned response `r`. -/
abbrev PollTrace := List (Option DescribeResponse)

/-- The `while True` poll loop of `wait_for_training`
(`trigger_training.py` lines 75-89), run against a scripted trace.  The
second argument is the elapsed time; each continuation (non-terminal
status, or an exception from the status query) sleeps 30 time-units
(`time.sleep(30)` at lines 85 and 88) before the next poll.  Returns the
response that broke the loop together with the elapsed time at the break,
or `none` when the trace is exhausted without a terminal status (the real
loop would still be polling). -/
def waitPoll : PollTrace → Nat → Option (DescribeResponse × Nat)
  | [], _ => none
  | none :: rest, t => waitPoll rest (t + 30)
  | some r :: rest, t =>
    if isTerminal r.status then some (r, t) else waitPoll rest (t + 30)

/-- `wait_for_training` after the loop (lines 91-100): `Completed` yields
`(True, model_artifacts)`, any other terminal status yields `(False, None)`. -/
def wait_for_training (trace : PollTrace) : Option (Bool × Option String) :=
  match waitPoll trace 0 with
  | none => none
  | some (r, _) =>
    if r.status = .Completed then some (true, some r.modelArtifacts)
    else some (false, none)

theorem waitPoll_first (trace : PollTrace) : ∀ (t k : Nat) (r : DescribeResponse),
    trace.get? k = some (some r) → isTerminal r.status = true →
    (∀ j, j < k → ∀ r2, trace.get? j = some (some r2) → isTerminal r2.status = false) →
    waitPoll trace t = some (r, t + 30 * k) := by
  induction trace with
  | nil => intro t k r hk; simp at hk
  | cons p rest ih =>
    intro t k r hk hterm hbefore
    cases k with
    | zero =>
      simp at hk
      subst hk
      simp [waitPoll, hterm]
    | succ k =>
      rw [List.get?_cons_succ] at hk
      have hrec := ih (t + 30) k r hk hterm
        (fun j hj r2 h2 => hbefore (j + 1) (by omega) r2 (by rw [List.get?_cons_succ]; exact h2))
      cases p with
      | none =>
        show waitPoll rest (t + 30) = some (r, t + 30 * (k + 1))
        have h30 : t + 30 * (k + 1) = t + 30 + 30 * k := by omega
        rw [h30]
        exact hrec
      | some r0 =>
        have h0 : isTerminal r0.status = false := hbefore 0 (by omega) r0 rfl
        simp only [waitPoll, h0, Bool.false_eq_true, if_false]
        have h30 : t + 30 * (k + 1) = t + 30 + 30 * k := by omega
        rw [h30]
        exact hrec

theorem waitPoll_none (trace : PollTrace) : ∀ t : Nat,
    (∀ p ∈ trace, ∀ r : DescribeResponse, p = some r → isTerminal r.status = false) →
    waitPoll trace t = none := by
  induction trace with
  | nil => intro t _; simp [waitPoll]
  | cons p rest ih =>
    intro t hall
    cases p with
    | none => simpa [waitPoll] using ih (t + 30) (fun q hq => hall q (by simp [hq]))
    | some r =>
      have hr : isTerminal r.status = false := hall (some r) (by simp) r rfl
      simpa [waitPoll, hr] using ih (t + 30) (fun q hq => hall q (by simp [hq]))

/-- C1: the Job Waiter's poll loop exits exactly at the first terminal
status in the scripted trace.  A poll whose status is non-terminal, or
whose status query raised an error, continues the loop after the fixed
30-unit interval (so the loop breaks at elapsed time `30 * k` when the
first terminal status sits at trace position `k`); a trace with no terminal
status never exits the loop. -/
theorem job_waiter_exits_iff_terminal (trace : PollTrace) :
    (∀ k : Nat, ∀ r : DescribeResponse,
      trace.get? k = some (some r) → isTerminal r.status = true →
      (∀ j, j < k → ∀ r2, trace.get? j = some (some r2) → isTerminal r2.status = false) →
      waitPoll trace 0 = some (r, 30 * k))
    ∧ ((∀ p ∈ trace, ∀ r : DescribeResponse, p = some r → isTerminal r.status = false) →
      waitPoll trace 0 = none) := by
  constructor
  · intro k r hk hterm hbefore
    simpa using waitPoll_first trace 0 k r hk hterm hbefore
  · intro hall
    exact waitPoll_none trace 0 hall

/-- Witness for C1: a trace with one errored poll, one `InProgress` poll and
then a `Completed` poll exits at the third poll with elapsed time 60. -/
theorem job_waiter_exits_iff_terminal_witness :
    waitPoll [none, some ⟨.InProgress, "", none⟩, some ⟨.Completed, "s3://b/m", none⟩] 0
      = some (⟨.Completed, "s3://b/m", none⟩, 60) := by
  have h := (job_waiter_exits_iff_terminal
    [none, some ⟨.InProgress, "", none⟩, some ⟨.Completed, "s3://b/m", none⟩]).1
    2 ⟨.Completed, "s3://b/m", none⟩ (by simp) (by decide)
    (by
      intro j hj r2 h2
      match j, hj with
      | 0, _ => simp at h2
      | 1, _ => simp at h2; rw [← h2]; decide)
  simpa using h

/-! ## Artifact Locator (`trigger_training.py`, `get_metrics_from_s3`) -/

/-- A JSON scalar as it appears in a metrics dictionary. -/
inductive JVal where
  | num (q : Rat)
  | str (s : String)
  deriving DecidableEq, Repr

/-- A parsed JSON object (the result of `json.loads` on a metrics file),
as an association list of keys to values. -/
abbrev MetricsDict := List (String × JVal)

/-- Key lookup in a parsed JSON object. -/
def dictLookup (d : MetricsDict) (k : String) : Option JVal :=
  (d.find? (fun kv => kv.1 = k)).map (fun kv => kv.2)

/-- The sentinel returned at line 164 of `trigger_training.py` when neither
tier produced a metrics file:
`{'accuracy': 0.0, 'note': 'Metrics file not found in S3 or output.tar.gz'}`. -/
def noteSentinel : MetricsDict :=
  [("accuracy", .num 0), ("note", .str "Metrics file not found in S3 or output.tar.gz")]

/-- The sentinel returned by the outer exception handler at line 170:
`{'accuracy': 0.0, 'error': str(e)}`. -/
def errorSentinel (e : String) : MetricsDict :=
  [("accuracy", .num 0), ("error", .str e)]

/-- Outcome of the `s3.get_object` call on the direct `metrics.json` key
(line 125): the body contents, a `NoSuchKey` error (caught at line 129), or
any other exception (propagates to the outer handler). -/
inductive GetResult where
  | ok (content : String)
  | noSuchKey
  | err (msg : String)
  deriving DecidableEq, Repr

/-- Outcome of `s3.download_file` on `output.tar.gz` (line 139). -/
inductive DownloadResult where
  | ok
  | err (msg : String)
  deriving DecidableEq, Repr

/-- Outcome of `tarfile.open` on the downloaded archive (line 143): the
archive members (name paired with the member contents; `none` contents
models a member for which `extractfile` returns `None`, i.e. a non-regular
file), or an exception. -/
inductive TarResult where
  | ok (members : List (String × Option String))
  | err (msg : String)
  deriving DecidableEq, Repr

/-- One storage backend as observed by a single `get_metrics_from_s3`
invocation: the scripted outcomes of its three external calls. -/
structure S3Backend where
  directGet : GetResult
  downloadTar : DownloadResult
  tarOpen : TarResult
  deriving DecidableEq, Repr

/-- `tar.extractfile(name)` (line 149): `none` models the `KeyError` raised
for a missing member (caught at line 157); `some none` a member that
yields `None`; `some (some c)` a regular member with contents `c`. -/
def extractFile (members : List (String × Option String)) (name : String) :
    Option (Option String) :=
  (members.find? (fun m => m.1 = name)).map (fun m => m.2)

/-- What `get_metrics_from_s3` did before returning: the dictionary it
returned, whether `s3.download_file` was invoked, whether `tarfile.open`
was invoked, and whether the temporary archive file created at line 137
(`NamedTemporaryFile(delete=False)`) is still on disk at return. -/
structure FetchOutcome where
  result : MetricsDict
  downloaded : Bool
  opened : Bool
  tmpLeft : Bool
  deriving DecidableEq, Repr

/-- `get_metrics_from_s3` (`trigger_training.py` lines 102-170),
parametrised over `parse` (modelling `json.loads`, which either returns a
dictionary or raises) and the storage backend.  The whole body sits in a
`try` whose `except Exception` returns `errorSentinel` (line 170), so the
embedding is total: no invocation raises to the caller.  The temporary
file is unlinked only at lines 155 (metrics extracted and parsed) and 161
(fall-through when the archive has no usable `metrics.json`); an exception
raised after the download (or by the download itself) reaches the outer
handler with the file still on disk. -/
def get_metrics_from_s3 (parse : String → Except String MetricsDict)
    (s3 : S3Backend) : FetchOutcome :=
  match s3.directGet with
  | .ok content =>
    match parse content with
    | .ok m => ⟨m, false, false, false⟩
    | .error e => ⟨errorSentinel e, false, false, false⟩
  | .err e => ⟨errorSentinel e, false, false, false⟩
  | .noSuchKey =>
    match s3.downloadTar with
    | .err e => ⟨errorSentinel e, true, false, true⟩
    | .ok =>
      match s3.tarOpen with
      | .err e => ⟨errorSentinel e, true, false, true⟩
      | .ok members =>
        match extractFile members "metrics.json" with
        | some (some content) =>
          match parse content with
          | .ok m => ⟨m, true, true, false⟩
          | .error e => ⟨errorSentinel e, true, true, true⟩
        | some none => ⟨noteSentinel, true, true, false⟩
        | none => ⟨noteSentinel, true, true, false⟩

/-- C2: the Artifact Locator tries the direct `metrics.json` lookup first
and the archive second, first success winning.  (a) If the direct object
exists and parses, its contents are returned and the archive is neither
downloaded nor opened; (b) if the direct lookup reports `NoSuchKey` and
the archive yields a parseable `metrics.json`, that document is returned;
(c) if neither tier yields the file, the `noteSentinel` (accuracy 0.0 plus
a diagnostic note) is returned; (d) on every backend the returned
dictionary is either a tier-supplied parsed document or carries
`accuracy = 0.0` together with a diagnostic `note` or `error` field — the
embedding being a total function mirrors the outer `except Exception`
handler: the function never raises to its caller. -/
theorem artifact_locator_two_tier (parse : String → Except String MetricsDict)
    (s3 : S3Backend) :
    (∀ c m, s3.directGet = .ok c → parse c = .ok m →
      get_metrics_from_s3 parse s3 = ⟨m, false, false, false⟩)
    ∧ (∀ members c m, s3.directGet = .noSuchKey → s3.downloadTar = .ok →
      s3.tarOpen = .ok members → extractFile members "metrics.json" = some (some c) →
      parse c = .ok m → (get_metrics_from_s3 parse s3).result = m)
    ∧ (∀ members, s3.directGet = .noSuchKey → s3.downloadTar = .ok →
      s3.tarOpen = .ok members →
      (∀ c, extractFile members "metrics.json" ≠ some (some c)) →
      (get_metrics_from_s3 parse s3).result = noteSentinel)
    ∧ ((∃ c, (s3.directGet = .ok c ∨
        (∃ members, s3.tarOpen = .ok members ∧
          extractFile members "metrics.json" = some (some c))) ∧
        parse c = .ok (get_metrics_from_s3 parse s3).result)
      ∨ (dictLookup (get_metrics_from_s3 parse s3).result "accuracy" = some (.num 0)
        ∧ (dictLookup (get_metrics_from_s3 parse s3).result "note" ≠ none
          ∨ dictLookup (get_metrics_from_s3 parse s3).result "error" ≠ none))) := by
  refine ⟨?_, ?_, ?_, ?_⟩
  · intro c m hget hp
    simp [get_metrics_from_s3, hget, hp]
  · intro members c m hget hdl htar hex hp
    simp [get_metrics_from_s3, hget, hdl, htar, hex, hp]
  · intro members hget hdl htar hex
    rcases s3 with ⟨dg, dl, tr⟩
    simp only at hget hdl htar
    subst hget; subst hdl; subst htar
    simp only [get_metrics_from_s3]
    rcases hm : extractFile members "metrics.json" with _ | ⟨_ | c⟩
    · simp
    · simp
    · exact absurd hm (hex c)
  · rcases s3 with ⟨dg, dl, tr⟩
    rcases dg with c | _ | e
    · rcases hp : parse c with e | m
      · right
        simp [get_metrics_from_s3, hp, errorSentinel, dictLookup]
      · left
        exact ⟨c, Or.inl rfl, by simp [get_metrics_from_s3, hp]⟩
    · rcases dl with _ | e
      · rcases tr with members | e
        · rcases hm : extractFile members "metrics.json" with _ | ⟨_ | c⟩
          · right
            simp [get_metrics_from_s3, hm, noteSentinel, dictLookup]
          · right
            simp [get_metrics_from_s3, hm, noteSentinel, dictLookup]
          · rcases hp : parse c with e | m
            · right
              simp [get_metrics_from_s3, hm, hp, errorSentinel, dictLookup]
            · left
              exact ⟨c, Or.inr ⟨members, rfl, hm⟩, by simp [get_metrics_from_s3, hm, hp]⟩
        · right
          simp [get_metrics_from_s3, errorSentinel, dictLookup]
      · right
        simp [get_metrics_from_s3, errorSentinel, dictLookup]
    · right
      simp [get_metrics_from_s3, errorSentinel, dictLookup]

/-- A concrete stand-in for `json.loads` used by the witnesses: the string
`"acc-97"` parses to a one-entry metrics dictionary, everything else is a
parse error. -/
def parseDemo : String → Except String MetricsDict := fun s =>
  if s = "acc-97" then .ok [("accuracy", .num (97 / 100))] else .error "invalid JSON"

/-- Witness for C2: on a backend whose direct lookup succeeds, the parsed
document comes back untouched and the archive tier is never exercised; on
a backend with only the archive, the document is extracted from it. -/
theorem artifact_locator_two_tier_witness :
    get_metrics_from_s3 parseDemo ⟨.ok "acc-97", .err "unused", .err "unused"⟩
      = ⟨[("accuracy", .num (97 / 100))], false, false, false⟩
    ∧ (get_metrics_from_s3 parseDemo
        ⟨.noSuchKey, .ok, .ok [("model.joblib", some "bin"), ("metrics.json", some "acc-97")]⟩).result
      = [("accuracy", .num (97 / 100))] := by
  constructor
  · exact (artifact_locator_two_tier parseDemo
      ⟨.ok "acc-97", .err "unused", .err "unused"⟩).1 "acc-97"
      [("accuracy", .num (97 / 100))] rfl rfl
  · exact ((artifact_locator_two_tier parseDemo
      ⟨.noSuchKey, .ok, .ok [("model.joblib", some "bin"), ("metrics.json", some "acc-97")]⟩).2.1)
      [("model.joblib", some "bin"), ("metrics.json", some "acc-97")] "acc-97"
      [("accuracy", .num (97 / 100))] rfl rfl rfl rfl rfl

/-- C10: only a `NoSuchKey` outcome of the direct lookup falls through to
the archive tier (the download is then attempted); any other tier-1 error
— an `s3.get_object` exception other than `NoSuchKey`, or a `json.loads`
failure on the direct object — returns the accuracy-0.0 error sentinel
without downloading the archive, and any error during the archive
download or `tarfile.open`, or while parsing the extracted member, skips
the remaining steps and returns the error sentinel. -/
theorem artifact_locator_error_policy (parse : String → Except String MetricsDict)
    (s3 : S3Backend) :
    (∀ e, s3.directGet = .err e →
      get_metrics_from_s3 parse s3 = ⟨errorSentinel e, false, false, false⟩)
    ∧ (∀ c e, s3.directGet = .ok c → parse c = .error e →
      get_metrics_from_s3 parse s3 = ⟨errorSentinel e, false, false, false⟩)
    ∧ (s3.directGet = .noSuchKey → (get_metrics_from_s3 parse s3).downloaded = true)
    ∧ (∀ e, s3.directGet = .noSuchKey → s3.downloadTar = .err e →
      (get_metrics_from_s3 parse s3).result = errorSentinel e
        ∧ (get_metrics_from_s3 parse s3).opened = false)
    ∧ (∀ e, s3.directGet = .noSuchKey → s3.downloadTar = .ok → s3.tarOpen = .err e →
      (get_metrics_from_s3 parse s3).result = errorSentinel e)
    ∧ (∀ members c e, s3.directGet = .noSuchKey → s3.downloadTar = .ok →
      s3.tarOpen = .ok members → extractFile members "metrics.json" = some (some c) →
      parse c = .error e → (get_metrics_from_s3 parse s3).result = errorSentinel e) := by
  refine ⟨?_, ?_, ?_, ?_, ?_, ?_⟩
  · intro e hget
    simp [get_metrics_from_s3, hget]
  · intro c e hget hp
    simp [get_metrics_from_s3, hget, hp]
  · intro hget
    rcases s3 with ⟨dg, dl, tr⟩
    simp only at hget
    subst hget
    rcases dl with _ | e
    · rcases tr with members | e
      · simp only [get_metrics_from_s3]
        rcases hm : extractFile members "metrics.json" with _ | ⟨_ | c⟩ <;>
          simp [hm]
        rcases hp : parse c with e | m <;> simp [hp]
      · simp [get_metrics_from_s3]
    · simp [get_metrics_from_s3]
  · intro e hget hdl
    simp [get_metrics_from_s3, hget, hdl]
  · intro e hget hdl htar
    simp [get_metrics_from_s3, hget, hdl, htar]
  · intro members c e hget hdl htar hex hp
    simp [get_metrics_from_s3, hget, hdl, htar, hex, hp]

/-- Witness for C10: an access-denied style error on the direct lookup
produces the error sentinel without any archive download, while a
download error after `NoSuchKey` produces the error sentinel without the
archive ever being opened. -/
theorem artifact_locator_error_policy_witness :
    get_metrics_from_s3 parseDemo ⟨.err "AccessDenied", .ok, .ok []⟩
      = ⟨errorSentinel "AccessDenied", false, false, false⟩
    ∧ (get_metrics_from_s3 parseDemo ⟨.noSuchKey, .err "throttled", .ok []⟩).result
      = errorSentinel "throttled" := by
  constructor
  · exact (artifact_locator_error_policy parseDemo
      ⟨.err "AccessDenied", .ok, .ok []⟩).1 "AccessDenied" rfl
  · exact ((artifact_locator_error_policy parseDemo
      ⟨.noSuchKey, .err "throttled", .ok []⟩).2.2.2.1 "throttled" rfl rfl).1

/-- Counterexample for C4: the claim says every exit path of the archive
tier deletes the downloaded temporary file, but when `s3.download_file`
raises, the exception reaches the outer handler at line 166 of
`trigger_training.py` without any `os.unlink`, and the temporary file
created with `NamedTemporaryFile(delete=False)` stays on disk. -/
theorem tmp_cleanup_counterexample :
    (get_metrics_from_s3 parseDemo ⟨.noSuchKey, .err "connection reset", .ok []⟩).tmpLeft
      = true := rfl

/-- C4 as amended: the temporary archive file is deleted on the successful
extraction path and on the metrics-missing fall-through paths, but it is
left on disk exactly when the direct lookup reported `NoSuchKey` and then
the download raised, `tarfile.open` raised, or parsing the extracted
`metrics.json` member raised — those exceptions bypass both `os.unlink`
calls (lines 155 and 161). -/
theorem tmp_cleanup_characterisation (parse : String → Except String MetricsDict)
    (s3 : S3Backend) :
    (get_metrics_from_s3 parse s3).tmpLeft = true ↔
      s3.directGet = .noSuchKey ∧
        ((∃ e, s3.downloadTar = .err e)
          ∨ (s3.downloadTar = .ok ∧ (∃ e, s3.tarOpen = .err e))
          ∨ (s3.downloadTar = .ok ∧ ∃ members c e, s3.tarOpen = .ok members
              ∧ extractFile members "metrics.json" = some (some c)
              ∧ parse c = .error e)) := by
  rcases s3 with ⟨dg, dl, tr⟩
  rcases dg with c | _ | e
  · rcases hp : parse c with e | m <;> simp [get_metrics_from_s3, hp]
  · rcases dl with _ | e
    · rcases tr with members | e
      · rcases hm : extractFile members "metrics.json" with _ | ⟨_ | c⟩
        · simp [get_metrics_from_s3, hm]
        · simp [get_metrics_from_s3, hm]
        · rcases hp : parse c with e | m
          · simp only [get_metrics_from_s3, hm, hp]
            constructor
            · intro _
              exact ⟨trivial, Or.inr (Or.inr ⟨trivial, members, c, e, rfl, hm, hp⟩)⟩
            · intro _
              trivial
          · simp [get_metrics_from_s3, hm, hp]
      · simp [get_metrics_from_s3]
    · simp [get_metrics_from_s3]
  · simp [get_metrics_from_s3]

/-- Witness for the amended C4: applying the characterisation at a backend
whose archive download fails shows the temporary file is left behind, and
at a backend whose archive simply lacks `metrics.json` shows it is
cleaned up. -/
theorem tmp_cleanup_characterisation_witness :
    (get_metrics_from_s3 parseDemo ⟨.noSuchKey, .err "connection reset", .ok []⟩).tmpLeft
      = true
    ∧ (get_metrics_from_s3 parseDemo
        ⟨.noSuchKey, .ok, .ok [("model.joblib", some "bin")]⟩).tmpLeft ≠ true := by
  constructor
  · exact (tmp_cleanup_characterisation parseDemo
      ⟨.noSuchKey, .err "connection reset", .ok []⟩).mpr
      ⟨rfl, Or.inl ⟨"connection reset", rfl⟩⟩
  · intro h
    have h2 := (tmp_cleanup_characterisation parseDemo
      ⟨.noSuchKey, .ok, .ok [("model.joblib", some "bin")]⟩).mp h
    rcases h2 with ⟨_, ⟨e, he⟩ | ⟨_, e, he⟩ | ⟨_, members, c, e, hmem, hex, _⟩⟩
    · exact DownloadResult.noConfusion he
    · exact TarResult.noConfusion he
    · rw [← (TarResult.ok.inj hmem)] at hex
      simp [extractFile] at hex

/-! ## Endpoint Deployer (`deploy_endpoint.py`) -/

/-- The externally visible actions `deploy_endpoint.py`'s `main` can take
after the existence check: the two network mutation requests of the update
path (`create_endpoint_config` at line 82, `update_endpoint` at line 96),
the create path (`model.deploy` at line 60), and a process exit. -/
inductive DeployEvent where
  | createEndpointConfig (configName : String)
  | updateEndpoint (endpointName configName : String)
  | deployNewEndpoint (endpointName : String)
  | exitProc (code : Nat)
  deriving DecidableEq, Repr

/-- An event is a network mutation call; `exitProc` only terminates the
process. -/
def isMutation : DeployEvent → Bool
  | .exitProc _ => false
  | _ => true

/-- `update_existing_endpoint` (`deploy_endpoint.py` lines 70-116): builds
a fresh configuration name `iris-endpoint-config-<timestamp>` (line 77),
creates it, then requests the in-place update.  The subsequent wait loop
only issues `describe_endpoint` reads, so it contributes no mutation
events. -/
def update_existing_endpoint (endpointName ts : String) : List DeployEvent :=
  let configName := "iris-endpoint-config-" ++ ts
  [.createEndpointConfig configName, .updateEndpoint endpointName configName]

/-- The deploy-or-update branch of `main` (`deploy_endpoint.py` lines
142-149), as the sequence of events it issues.  `ex` is the result of
`check_endpoint_exists`, `upd` the `--update-endpoint` flag, `ts` the
timestamp taken when the update path builds its configuration name.
`SKLearnModel(...)` at line 42 runs before the branch but is a local
object construction, not a network mutation. -/
def deploy_main (endpointName ts : String) (ex upd : Bool) : List DeployEvent :=
  if ex && upd then update_existing_endpoint endpointName ts
  else if ex && !upd then [.exitProc 1]
  else [.deployNewEndpoint endpointName]

/-- C3: the Endpoint Deployer follows the decision table exactly.  With no
existing endpoint it takes the create path; with an existing endpoint and
update allowed it creates a fresh timestamp-versioned configuration and
requests the in-place update with that same configuration; with an
existing endpoint and update not allowed it exits with code 1 and issues
no network mutation call. -/
theorem deployer_decision_table (endpointName ts : String) (ex upd : Bool) :
    (ex = false → deploy_main endpointName ts ex upd = [.deployNewEndpoint endpointName])
    ∧ (ex = true → upd = true → deploy_main endpointName ts ex upd =
      [.createEndpointConfig ("iris-endpoint-config-" ++ ts),
        .updateEndpoint endpointName ("iris-endpoint-config-" ++ ts)])
    ∧ (ex = true → upd = false → deploy_main endpointName ts ex upd = [.exitProc 1]
      ∧ ∀ e ∈ deploy_main endpointName ts ex upd, isMutation e = false) := by
  refine ⟨?_, ?_, ?_⟩
  · intro hex
    subst hex
    cases upd <;> simp [deploy_main]
  · intro hex hupd
    subst hex; subst hupd
    simp [deploy_main, update_existing_endpoint]
  · intro hex hupd
    subst hex; subst hupd
    refine ⟨by simp [deploy_main], ?_⟩
    intro e he
    simp [deploy_main] at he
    subst he
    rfl

/-- Witness for C3: all three rows of the decision table at a concrete
endpoint name and timestamp. -/
theorem deployer_decision_table_witness :
    deploy_main "iris-endpoint" "2025-01-01-00-00-00" false true
      = [.deployNewEndpoint "iris-endpoint"]
    ∧ deploy_main "iris-endpoint" "2025-01-01-00-00-00" true true
      = [.createEndpointConfig "iris-endpoint-config-2025-01-01-00-00-00",
          .updateEndpoint "iris-endpoint" "iris-endpoint-config-2025-01-01-00-00-00"]
    ∧ deploy_main "iris-endpoint" "2025-01-01-00-00-00" true false = [.exitProc 1] := by
  refine ⟨?_, ?_, ?_⟩
  · exact (deployer_decision_table "iris-endpoint" "2025-01-01-00-00-00" false true).1 rfl
  · have h := (deployer_decision_table "iris-endpoint" "2025-01-01-00-00-00" true true).2.1
      rfl rfl
    simpa using h
  · exact ((deployer_decision_table "iris-endpoint" "2025-01-01-00-00-00" true false).2.2
      rfl rfl).1

/-! ## Endpoint Prober (`test_endpoint.py`) -/

/-- The expected labels of the three canonical samples built by
`get_test_data` (`test_endpoint.py` lines 20-33): one per Iris class. -/
def expectedLabels : List String := ["setosa", "versicolor", "virginica"]

/-- A live endpoint as observed by one run of the prober: the outcome of
each single-sample invocation (`.ok label` is the returned prediction,
`.error` a transport or application exception), the outcome of the one
batch invocation (a list of returned prediction labels), and the outcome
of each of the three malformed-payload invocations (`.ok r` means the
endpoint answered normally with result `r`, `.error` that it raised). -/
structure EndpointBehavior where
  single : Nat → Except String String
  batch : Except String (List String)
  negative : Nat → Except String String

/-- The loop body of `test_single_prediction` (`test_endpoint.py` lines
63-85) for sample index `i`: invoke, compare the returned label to the
expected one; the `except` arm (line 83) counts a failure for this sample
only. -/
def singleStep (b : EndpointBehavior) (acc : Nat × Nat) (i : Nat) : Nat × Nat :=
  match b.single i with
  | .ok p =>
    if p = expectedLabels.getD i "" then (acc.1 + 1, acc.2) else (acc.1, acc.2 + 1)
  | .error _ => (acc.1, acc.2 + 1)

/-- `test_single_prediction` (`test_endpoint.py` lines 51-87): iterate over
the three samples with `singleStep`, starting from `passed = failed = 0`. -/
def test_single_prediction (b : EndpointBehavior) : Nat × Nat :=
  (List.range expectedLabels.length).foldl (singleStep b) (0, 0)

/-- The loop body of `test_batch_prediction` (lines 113-123): one
positional comparison of a returned prediction against its expected
label. -/
def batchStep (acc : Nat × Nat) (pe : String × String) : Nat × Nat :=
  if pe.1 = pe.2 then (acc.1 + 1, acc.2) else (acc.1, acc.2 + 1)

/-- `test_batch_prediction` (`test_endpoint.py` lines 89-128): one request
carrying all three samples; on an exception the whole check returns
`(0, len(test_samples))` (line 128); on a response, predictions are
compared positionally via `zip(predictions, test_samples)` (line 113), so
surplus entries on either side are silently dropped. -/
def test_batch_prediction (b : EndpointBehavior) : Nat × Nat :=
  match b.batch with
  | .error _ => (0, expectedLabels.length)
  | .ok preds => (preds.zip expectedLabels).foldl batchStep (0, 0)

/-- `test_error_handling` (`test_endpoint.py` lines 130-149): each of the
three malformed payloads passes when the endpoint raises and fails when it
answers normally.  The function only prints; it returns nothing (`None`
in the source), and `main` ignores its outcomes. -/
def test_error_handling (b : EndpointBehavior) : List Bool :=
  (List.range 3).map (fun i =>
    match b.negative i with
    | .ok _ => false
    | .error _ => true)

/-- `main` of `test_endpoint.py` (lines 151-183): run the three checks,
then exit 1 when `single_failed + batch_failed > 0`, else exit 0.  The
negative check's outcomes are computed (and printed) but never read. -/
def test_endpoint_main (b : EndpointBehavior) : Nat :=
  let single := test_single_prediction b
  let batch := test_batch_prediction b
  let _negOutcomes := test_error_handling b
  if single.2 + batch.2 > 0 then 1 else 0

/-- Whether sample `i` of the single-item check passes: the invocation
returned exactly the expected label. -/
def singlePasses (b : EndpointBehavior) (i : Nat) : Bool :=
  match b.single i with
  | .ok p => p = expectedLabels.getD i ""
  | .error _ => false

theorem singleStep_eq (b : EndpointBehavior) (a c i : Nat) :
    singleStep b (a, c) i = if singlePasses b i then (a + 1, c) else (a, c + 1) := by
  unfold singleStep singlePasses
  rcases b.single i with e | p
  · simp
  · by_cases hp : p = expectedLabels.getD i "" <;> simp [hp]

theorem singleFold_count (b : EndpointBehavior) : ∀ (idxs : List Nat) (a c : Nat),
    idxs.foldl (singleStep b) (a, c)
      = (a + idxs.countP (fun i => singlePasses b i),
          c + idxs.countP (fun i => !singlePasses b i)) := by
  intro idxs
  induction idxs with
  | nil => intro a c; simp
  | cons i rest ih =>
    intro a c
    rw [List.foldl_cons, singleStep_eq]
    by_cases hp : singlePasses b i = true
    · rw [if_pos hp, ih, List.countP_cons, List.countP_cons]
      rw [Prod.mk.injEq]
      simp [hp]
      omega
    · rw [if_neg hp, ih, List.countP_cons, List.countP_cons]
      rw [Prod.mk.injEq]
      simp [Bool.eq_false_iff.mpr hp]
      omega

theorem batchFold_count : ∀ (l : List (String × String)) (a c : Nat),
    l.foldl batchStep (a, c)
      = (a + l.countP (fun pe => pe.1 = pe.2),
          c + l.countP (fun pe => !(pe.1 = pe.2 : Bool))) := by
  intro l
  induction l with
  | nil => intro a c; simp
  | cons pe rest ih =>
    intro a c
    rw [List.foldl_cons]
    by_cases hpe : pe.1 = pe.2
    · rw [show batchStep (a, c) pe = (a + 1, c) from by simp [batchStep, hpe]]
      rw [ih, List.countP_cons, List.countP_cons, Prod.mk.injEq]
      simp [hpe]
      omega
    · rw [show batchStep (a, c) pe = (a, c + 1) from by simp [batchStep, hpe]]
      rw [ih, List.countP_cons, List.countP_cons, Prod.mk.injEq]
      simp [hpe]
      omega

theorem countP_split {α : Type} (l : List α) (p : α → Bool) :
    l.countP p + l.countP (fun x => !p x) = l.length := by
  induction l with
  | nil => simp
  | cons x rest ih =>
    by_cases hx : p x = true
    · simp [List.countP_cons, hx]
      omega
    · simp [List.countP_cons, hx]
      omega

/-- C5: the prober's exit code is non-zero iff at least one single-item or
batch comparison failed, and two endpoint behaviours that agree on the
single and batch invocations get the same exit code whatever the three
negative checks do — the negative outcomes never influence the exit
status. -/
theorem prober_exit_contract (b : EndpointBehavior) :
    (test_endpoint_main b ≠ 0 ↔
      (test_single_prediction b).2 + (test_batch_prediction b).2 > 0)
    ∧ (∀ b2 : EndpointBehavior, b2.single = b.single → b2.batch = b.batch →
      test_endpoint_main b2 = test_endpoint_main b) := by
  constructor
  · have hmain : test_endpoint_main b
        = if (test_single_prediction b).2 + (test_batch_prediction b).2 > 0 then 1 else 0 := rfl
    rw [hmain]
    by_cases hgt : (test_single_prediction b).2 + (test_batch_prediction b).2 > 0
    · simp [hgt]
    · simp [hgt]
  · intro b2 hs hb
    have hstep : singleStep b2 = singleStep b := by
      funext acc i
      simp [singleStep, hs]
    simp only [test_endpoint_main, test_single_prediction, test_batch_prediction, hstep, hb]

/-- Witness for C5: a behaviour whose batch mislabels one sample exits 1,
and flipping all three negative outcomes leaves the exit code unchanged. -/
theorem prober_exit_contract_witness :
    test_endpoint_main
      ⟨fun i => .ok (expectedLabels.getD i ""),
        .ok ["setosa", "setosa", "virginica"],
        fun _ => .error "ModelError"⟩ = 1
    ∧ test_endpoint_main
        ⟨fun i => .ok (expectedLabels.getD i ""),
          .ok ["setosa", "setosa", "virginica"],
          fun _ => .ok "unexpected 200"⟩
      = test_endpoint_main
        ⟨fun i => .ok (expectedLabels.getD i ""),
          .ok ["setosa", "setosa", "virginica"],
          fun _ => .error "ModelError"⟩ := by
  constructor
  · rfl
  · exact (prober_exit_contract
      ⟨fun i => .ok (expectedLabels.getD i ""),
        .ok ["setosa", "setosa", "virginica"],
        fun _ => .error "ModelError"⟩).2
      ⟨fun i => .ok (expectedLabels.getD i ""),
        .ok ["setosa", "setosa", "virginica"],
        fun _ => .ok "unexpected 200"⟩ rfl rfl

/-- C6: error isolation is asymmetric.  The single-item check tallies each
of the three samples independently — the pass count is the number of
samples whose own invocation returned the expected label, the fail count
the number of all others (so an error on one sample costs exactly that
sample, and every other sample is still attempted and scored on its own
invocation) — whereas one request-level error in the batch check records
all three positions failed at once: `(0, 3)`. -/
theorem prober_error_isolation (b : EndpointBehavior) :
    (∀ e, b.batch = .error e → test_batch_prediction b = (0, 3))
    ∧ test_single_prediction b =
      ((List.range 3).countP (fun i => singlePasses b i),
        (List.range 3).countP (fun i => !singlePasses b i)) := by
  constructor
  · intro e he
    simp [test_batch_prediction, he, expectedLabels]
  · have hlen : expectedLabels.length = 3 := rfl
    simp only [test_single_prediction, hlen]
    simpa using singleFold_count b (List.range 3) 0 0

/-- Witness for C6: a behaviour whose second single invocation raises
still scores the first and third samples, and a batch-level error yields
zero passed, three failed. -/
theorem prober_error_isolation_witness :
    test_batch_prediction
      ⟨fun i => if i = 1 then .error "timeout" else .ok (expectedLabels.getD i ""),
        .error "ValidationError", fun _ => .error "e"⟩ = (0, 3)
    ∧ test_single_prediction
      ⟨fun i => if i = 1 then .error "timeout" else .ok (expectedLabels.getD i ""),
        .error "ValidationError", fun _ => .error "e"⟩ = (2, 1) := by
  constructor
  · exact (prober_error_isolation
      ⟨fun i => if i = 1 then .error "timeout" else .ok (expectedLabels.getD i ""),
        .error "ValidationError", fun _ => .error "e"⟩).1 "ValidationError" rfl
  · have h := (prober_error_isolation
      ⟨fun i => if i = 1 then .error "timeout" else .ok (expectedLabels.getD i ""),
        .error "ValidationError", fun _ => .error "e"⟩).2
    rw [h]
    rfl

/-- C9: when the batch response parses but carries `k` prediction entries,
only the first `min k 3` positions are compared — pass and fail counts
are the tallies over `preds.zip expectedLabels` and sum to `min k 3` — so
an empty predictions list yields `(0, 0)`, and with a clean single-item
check an empty batch response exits 0. -/
theorem prober_batch_truncation (b : EndpointBehavior) (preds : List String)
    (h : b.batch = .ok preds) :
    test_batch_prediction b =
      ((preds.zip expectedLabels).countP (fun pe => pe.1 = pe.2),
        (preds.zip expectedLabels).countP (fun pe => !(pe.1 = pe.2 : Bool)))
    ∧ (test_batch_prediction b).1 + (test_batch_prediction b).2 = min preds.length 3
    ∧ (preds = [] → test_batch_prediction b = (0, 0))
    ∧ (preds = [] → (test_single_prediction b).2 = 0 → test_endpoint_main b = 0) := by
  have hchar : test_batch_prediction b =
      ((preds.zip expectedLabels).countP (fun pe => pe.1 = pe.2),
        (preds.zip expectedLabels).countP (fun pe => !(pe.1 = pe.2 : Bool))) := by
    simp only [test_batch_prediction, h]
    simpa using batchFold_count (preds.zip expectedLabels) 0 0
  refine ⟨hchar, ?_, ?_, ?_⟩
  · rw [hchar]
    have hlen : (preds.zip expectedLabels).length = min preds.length 3 := by
      simp [List.length_zip, expectedLabels]
    rw [countP_split (preds.zip expectedLabels) (fun pe => (pe.1 = pe.2 : Bool)), hlen]
  · intro hnil
    subst hnil
    rw [hchar]
    simp
  · intro hnil hsingle
    subst hnil
    have hmain : test_endpoint_main b
        = if (test_single_prediction b).2 + (test_batch_prediction b).2 > 0 then 1 else 0 := rfl
    rw [hmain, hsingle, hchar]
    simp

/-- Witness for C9: a well-formed batch response with an empty predictions
list scores zero passed and zero failed, and with all single invocations
correct the prober exits 0. -/
theorem prober_batch_truncation_witness :
    test_batch_prediction
      ⟨fun i => .ok (expectedLabels.getD i ""), .ok [], fun _ => .error "e"⟩ = (0, 0)
    ∧ test_endpoint_main
      ⟨fun i => .ok (expectedLabels.getD i ""), .ok [], fun _ => .error "e"⟩ = 0 := by
  have h := prober_batch_truncation
    ⟨fun i => .ok (expectedLabels.getD i ""), .ok [], fun _ => .error "e"⟩ [] rfl
  exact ⟨h.2.2.1 rfl, h.2.2.2 rfl rfl⟩

/-! ## Resource Reaper (`cleanup.py`) -/

/-- One entry of the `list_endpoints` response: the fields the script
reads (`EndpointName`, `EndpointStatus`). -/
structure EndpointSummary where
  name : String
  status : String
  deriving DecidableEq, Repr

/-- The delete calls `cleanup.py` can issue during the endpoint sweep. -/
inductive CleanupEvent where
  | deleteEndpoint (name : String)
  | deleteEndpointConfig (name : String)
  deriving DecidableEq, Repr

/-- The filter at line 60 of `cleanup.py`:
`'iris' in ep['EndpointName'].lower()` — the characters of `iris` occur
contiguously in the lowercased name. -/
def nameMatchesIris (s : String) : Bool :=
  decide ("iris".toList <:+: s.toList.map Char.toLower)

/-- `delete_endpoint` (`cleanup.py` lines 18-46): `describe_endpoint`
yields the configuration name; every `ClientError` (endpoint not found, or
any delete failure) is caught and printed, issuing nothing further; in
dry-run mode the function returns before any delete call (line 30);
otherwise it deletes the endpoint and then its configuration. -/
def delete_endpoint (name : String) (describe : String → Except String String)
    (dryRun : Bool) : List CleanupEvent :=
  match describe name with
  | .error _ => []
  | .ok configName =>
    if dryRun then []
    else [.deleteEndpoint name, .deleteEndpointConfig configName]

/-- `list_and_delete_iris_endpoints` (`cleanup.py` lines 48-75): filter the
listing by the case-insensitive `iris` substring match, report the
candidates, and — only when not in dry-run mode — run `delete_endpoint`
on each candidate.  Returns the candidate list and the delete calls
issued. -/
def list_and_delete_iris_endpoints (eps : List EndpointSummary)
    (describe : String → Except String String) (dryRun : Bool) :
    List EndpointSummary × List CleanupEvent :=
  let irisEndpoints := eps.filter (fun ep => nameMatchesIris ep.name)
  (irisEndpoints,
    if dryRun then []
    else (irisEndpoints.map (fun ep => delete_endpoint ep.name describe false)).flatten)

/-- C7: the endpoint sweep's deletion candidates are exactly the listed
endpoints whose name contains `iris` case-insensitively (stated with
`List.IsInfix` over the lowercased name); in dry-run mode zero delete
calls are issued regardless of how many candidates match; and in
non-dry-run mode every matching endpoint whose `describe_endpoint` call
succeeds gets both a `delete_endpoint` and a `delete_endpoint_config`
call. -/
theorem reaper_endpoint_sweep (eps : List EndpointSummary)
    (describe : String → Except String String) (dryRun : Bool) :
    (∀ ep, ep ∈ (list_and_delete_iris_endpoints eps describe dryRun).1 ↔
      ep ∈ eps ∧ "iris".toList <:+: ep.name.toList.map Char.toLower)
    ∧ (dryRun = true → (list_and_delete_iris_endpoints eps describe dryRun).2 = [])
    ∧ (dryRun = false → ∀ ep ∈ eps, nameMatchesIris ep.name = true →
      ∀ configName, describe ep.name = .ok configName →
        CleanupEvent.deleteEndpoint ep.name
            ∈ (list_and_delete_iris_endpoints eps describe dryRun).2
          ∧ CleanupEvent.deleteEndpointConfig configName
            ∈ (list_and_delete_iris_endpoints eps describe dryRun).2) := by
  refine ⟨?_, ?_, ?_⟩
  · intro ep
    simp only [list_and_delete_iris_endpoints, List.mem_filter, nameMatchesIris]
    constructor
    · rintro ⟨hmem, hmatch⟩
      exact ⟨hmem, of_decide_eq_true hmatch⟩
    · rintro ⟨hmem, hmatch⟩
      exact ⟨hmem, decide_eq_true hmatch⟩
  · intro hdry
    simp [list_and_delete_iris_endpoints, hdry]
  · intro hdry ep hmem hmatch configName hdesc
    have hin : ep ∈ eps.filter (fun e => nameMatchesIris e.name) :=
      List.mem_filter.mpr ⟨hmem, hmatch⟩
    have hdel : delete_endpoint ep.name describe false
        = [.deleteEndpoint ep.name, .deleteEndpointConfig configName] := by
      simp [delete_endpoint, hdesc]
    have hsub : ∀ x ∈ delete_endpoint ep.name describe false,
        x ∈ (list_and_delete_iris_endpoints eps describe dryRun).2 := by
      intro x hx
      simp only [list_and_delete_iris_endpoints, hdry, if_false, Bool.false_eq_true,
        List.mem_flatten]
      exact ⟨delete_endpoint ep.name describe false, List.mem_map_of_mem _ hin, hx⟩
    constructor
    · exact hsub _ (by rw [hdel]; simp)
    · exact hsub _ (by rw [hdel]; simp)

/-- Witness for C7: in a mixed listing only the two `iris`-named endpoints
are candidates; a dry run issues no delete calls; a real run deletes the
matching endpoint and its configuration. -/
theorem reaper_endpoint_sweep_witness :
    ((list_and_delete_iris_endpoints
        [⟨"Iris-endpoint", "InService"⟩, ⟨"churn-model", "InService"⟩,
          ⟨"my-iris-v2", "Creating"⟩]
        (fun n => .ok (n ++ "-config")) true).1.map (fun ep => ep.name)
      = ["Iris-endpoint", "my-iris-v2"])
    ∧ (list_and_delete_iris_endpoints
        [⟨"Iris-endpoint", "InService"⟩, ⟨"churn-model", "InService"⟩,
          ⟨"my-iris-v2", "Creating"⟩]
        (fun n => .ok (n ++ "-config")) true).2 = []
    ∧ CleanupEvent.deleteEndpointConfig "Iris-endpoint-config"
        ∈ (list_and_delete_iris_endpoints
            [⟨"Iris-endpoint", "InService"⟩, ⟨"churn-model", "InService"⟩,
              ⟨"my-iris-v2", "Creating"⟩]
            (fun n => .ok (n ++ "-config")) false).2 := by
  refine ⟨by decide, ?_, ?_⟩
  · exact (reaper_endpoint_sweep
      [⟨"Iris-endpoint", "InService"⟩, ⟨"churn-model", "InService"⟩,
        ⟨"my-iris-v2", "Creating"⟩]
      (fun n => .ok (n ++ "-config")) true).2.1 rfl
  · exact ((reaper_endpoint_sweep
      [⟨"Iris-endpoint", "InService"⟩, ⟨"churn-model", "InService"⟩,
        ⟨"my-iris-v2", "Creating"⟩]
      (fun n => .ok (n ++ "-config")) false).2.2 rfl
      ⟨"Iris-endpoint", "InService"⟩ (by simp) (by decide)
      "Iris-endpoint-config" rfl).2

/-! ## Job Info persistence (`trigger_training.py`, `main`) -/

/-- The record written to `training_job_info.json`: `main` writes either
the success shape of `save_job_info` (lines 172-187: no `status` key,
`metrics` present), the failure shape (lines 203-209: `metrics = None`,
`status = 'failed'`), or the no-wait shape (lines 229-235: `metrics =
None`, `status = 'started'`). -/
structure JobInfoRecord where
  jobName : String
  modelArtifacts : Option String
  metrics : Option MetricsDict
  statusTag : Option String
  deriving DecidableEq, Repr

/-- `save_job_info` (`trigger_training.py` lines 172-187): the success
record, with the metrics dictionary and no status tag. -/
def save_job_info (jobName : String) (modelArtifacts : Option String)
    (metrics : MetricsDict) : JobInfoRecord :=
  ⟨jobName, modelArtifacts, some metrics, none⟩

/-- The post-submission part of `main` (`trigger_training.py` lines
195-238): without `--wait` it writes the `started` record and exits 0;
with `--wait` it runs `wait_for_training` (never returning if the loop
never observes a terminal status, hence the `Option`), writes the
`failed` record and exits 1 on an unsuccessful outcome, and otherwise
fetches metrics (total, so the `metrics is None` fallback at line 218 is
never taken, matching `get_metrics_from_s3` always returning a
dictionary) and writes the success record via `save_job_info`, exiting 0.
Returns the record written together with the process exit code. -/
def trigger_main (jobName : String) (wait : Bool) (trace : PollTrace)
    (parse : String → Except String MetricsDict) (s3 : S3Backend) :
    Option (JobInfoRecord × Nat) :=
  if wait then
    match wait_for_training trace with
    | none => none
    | some (success, modelArtifacts) =>
      if success then
        let metrics := (get_metrics_from_s3 parse s3).result
        some (save_job_info jobName modelArtifacts metrics, 0)
      else some (⟨jobName, none, none, some "failed"⟩, 1)
  else some (⟨jobName, none, none, some "started"⟩, 0)

/-- C8: every record written to `training_job_info.json` has a non-null
`metrics` field only if the wait loop observed final status `Completed`;
when the observed terminal status is `Failed` or `Stopped` the record has
null metrics and the `failed` tag, and when the script does not wait it
has null metrics and the `started` tag. -/
theorem job_info_metrics_invariant (jobName : String) (wait : Bool)
    (trace : PollTrace) (parse : String → Except String MetricsDict)
    (s3 : S3Backend) (rec : JobInfoRecord) (code : Nat)
    (hrun : trigger_main jobName wait trace parse s3 = some (rec, code)) :
    (rec.metrics ≠ none → wait = true ∧
      ∃ resp t, waitPoll trace 0 = some (resp, t) ∧ resp.status = .Completed)
    ∧ (wait = true → ∀ resp t, waitPoll trace 0 = some (resp, t) →
      (resp.status = .Failed ∨ resp.status = .Stopped) →
      rec.metrics = none ∧ rec.statusTag = some "failed" ∧ code = 1)
    ∧ (wait = false → rec.metrics = none ∧ rec.statusTag = some "started") := by
  refine ⟨?_, ?_, ?_⟩
  · intro hm
    cases wait with
    | false =>
      have hp := Option.some.inj hrun
      injection hp with h1 h2
      rw [← h1] at hm
      simp at hm
    | true =>
      refine ⟨rfl, ?_⟩
      rcases hw : waitPoll trace 0 with _ | ⟨resp, t⟩
      · exfalso
        have hnone : trigger_main jobName true trace parse s3 = none := by
          unfold trigger_main wait_for_training
          rw [hw]
          rfl
        rw [hnone] at hrun
        exact Option.noConfusion hrun
      · by_cases hc : resp.status = .Completed
        · exact ⟨resp, t, rfl, hc⟩
        · exfalso
          have hfail : trigger_main jobName true trace parse s3
              = some (⟨jobName, none, none, some "failed"⟩, 1) := by
            unfold trigger_main wait_for_training
            rw [hw]
            simp [hc]
          rw [hfail] at hrun
          have hp := Option.some.inj hrun
          injection hp with h1 h2
          rw [← h1] at hm
          simp at hm
  · intro hwait resp t hw hfs
    subst hwait
    have hc : resp.status ≠ .Completed := by
      rcases hfs with h | h <;> rw [h] <;> exact fun hcc => JobStatus.noConfusion hcc
    have hfail : trigger_main jobName true trace parse s3
        = some (⟨jobName, none, none, some "failed"⟩, 1) := by
      unfold trigger_main wait_for_training
      rw [hw]
      simp [hc]
    rw [hfail] at hrun
    have hp := Option.some.inj hrun
    injection hp with h1 h2
    rw [← h1, ← h2]
    exact ⟨rfl, rfl, rfl⟩
  · intro hwait
    subst hwait
    have hp := Option.some.inj hrun
    injection hp with h1 h2
    rw [← h1]
    exact ⟨rfl, rfl⟩

/-- Witness for C8: a waited run whose job ends `Failed` writes the null
metrics, `failed`-tagged record with exit code 1; a no-wait run writes the
`started` record. -/
theorem job_info_metrics_invariant_witness :
    ((⟨"iris-training-x", none, none, some "failed"⟩ : JobInfoRecord).metrics = none
      ∧ (⟨"iris-training-x", none, none, some "failed"⟩ : JobInfoRecord).statusTag
        = some "failed" ∧ 1 = 1)
    ∧ ((⟨"iris-training-x", none, none, some "started"⟩ : JobInfoRecord).metrics = none
      ∧ (⟨"iris-training-x", none, none, some "started"⟩ : JobInfoRecord).statusTag
        = some "started") := by
  constructor
  · exact (job_info_metrics_invariant "iris-training-x" true
      [some ⟨.Failed, "", some "AlgorithmError"⟩] parseDemo
      ⟨.noSuchKey, .ok, .ok []⟩ ⟨"iris-training-x", none, none, some "failed"⟩ 1
      rfl).2.1 rfl ⟨.Failed, "", some "AlgorithmError"⟩ 0 rfl (Or.inl rfl)
  · exact (job_info_metrics_invariant "iris-training-x" false [] parseDemo
      ⟨.noSuchKey, .ok, .ok []⟩ ⟨"iris-training-x", none, none, some "started"⟩ 0
      rfl).2.2 rfl

end IrisMlops
